import Mathlib

/-!
Verification of the social-media-generator orchestration pipeline.

Shallow embedding of the Python sources under src/agents/:
  base_agent.py, content_analysis_agent.py, text_generation_agent.py,
  visual_generation_agent.py, orchestrator_agent.py.

Modelling conventions:
- Python dicts with a fixed key set become structures; a key that may be
  absent becomes an Option field; a present key whose value may be Python
  None becomes a nested Option.
- Python floats are modelled as rationals (all arithmetic in the sources is
  sums of integer counts and divisions, so no rounding behaviour is lost and
  NaN cannot arise by typing).
- External collaborators (nltk sentiment scoring and tokenizers, the OpenAI
  text/image backends, PIL image rendering) are modelled as oracle
  parameters: the theorems quantify over every possible behaviour of those
  collaborators, including failing ones.
- Python exceptions are modelled with Option / Except results; a raised and
  uncaught exception is an error value, a caught one follows the source's
  handler.
-/

deriving instance DecidableEq for Except

namespace SMG

/-- Binary image payloads (Python bytes) modelled as byte lists. -/
abbrev Bytes := List ℕ

/-- Per-post polarity scores as returned by the external sentiment analyzer
(keys pos/neg/neu/compound of nltk polarity scores). -/
structure SentimentScores where
  pos : ℚ
  neg : ℚ
  neu : ℚ
  compound : ℚ
deriving Repr, DecidableEq

/-- Averaged sentiment, the output dict of ContentAnalysisAgent._analyze_overall_sentiment
(keys positive/negative/neutral/compound). -/
structure AvgSentiment where
  positive : ℚ
  negative : ℚ
  neutral : ℚ
  compound : ℚ
deriving Repr, DecidableEq

/-- Output of ContentAnalysisAgent._analyze_style. -/
structure StyleMetrics where
  avg_sentence_length : ℚ
  vocabulary_richness : ℚ
  emoji_usage : ℚ
deriving Repr, DecidableEq

/-- Output of ContentAnalysisAgent._analyze_language_metrics. -/
structure LanguageMetrics where
  avg_post_length : ℚ
  avg_word_length : ℚ
  question_frequency : ℚ
  exclamation_frequency : ℚ
deriving Repr, DecidableEq

/-- The analysis results dict built by ContentAnalysisAgent.process. -/
structure AnalysisResults where
  overall_sentiment : AvgSentiment
  tone_analysis : List (String × ℚ)
  style_characteristics : StyleMetrics
  common_topics : List String
  language_metrics : LanguageMetrics
deriving Repr, DecidableEq

/-- Occurrence of a pattern inside a character list: the pattern is a prefix
of some suffix. -/
def pyContainsChars (pat : List Char) : List Char → Bool
  | [] => pat.isEmpty
  | c :: rest => pat.isPrefixOf (c :: rest) || pyContainsChars pat rest

/-- Python post.lower() as a character list (ASCII lowering; every marker in
the sources is ASCII). -/
def pyLower (s : String) : List Char :=
  s.toList.map Char.toLower

/-- Substring membership test, Python `marker in post_lower`. -/
def pyContains (post_lower : List Char) (marker : String) : Bool :=
  pyContainsChars marker.toList post_lower

/-- The tone marker table of ContentAnalysisAgent._analyze_tone, in its
source (dict-insertion) order. -/
def toneMarkers : List (String × List String) :=
  [("professional", ["therefore", "consequently", "furthermore", "moreover"]),
   ("casual", ["hey", "cool", "awesome", "yeah"]),
   ("formal", ["hereby", "accordingly", "pursuant", "whilst"]),
   ("friendly", ["thanks", "please", "welcome", "happy"])]

/-- Raw score one tone accumulates over the posts: for each post, the number
of that tone's markers occurring in the lowercased post. -/
def toneScore (posts : List String) (markers : List String) : ℕ :=
  (posts.map (fun post => (markers.filter (fun m => pyContains (pyLower post) m)).length)).sum

/-- The raw tone-score association list, before normalization. -/
def toneRawScores (posts : List String) : List (String × ℕ) :=
  toneMarkers.map (fun tm => (tm.1, toneScore posts tm.2))

/-- Sum of all raw tone scores across the four tones. -/
def totalToneScore (posts : List String) : ℕ :=
  ((toneRawScores posts).map (fun x => x.2)).sum

/-- ContentAnalysisAgent._analyze_tone: raw marker counts per tone, then each
divided by the total, with the Python idiom `sum(...) or 1` making the
denominator 1 when the total is zero. -/
def analyzeTone (posts : List String) : List (String × ℚ) :=
  let raw := toneRawScores posts
  let denom : ℚ := if totalToneScore posts = 0 then 1 else (totalToneScore posts : ℚ)
  raw.map (fun x => (x.1, (x.2 : ℚ) / denom))

/-- ContentAnalysisAgent._analyze_overall_sentiment: scores every post with
the external analyzer (oracle `scorer`), then averages.  The Python division
by `len(sentiments)` raises ZeroDivisionError when the post list is empty;
that raise is the `none` result. -/
def analyzeOverallSentiment (scorer : String → SentimentScores)
    (posts : List String) : Option AvgSentiment :=
  let sentiments := posts.map scorer
  if sentiments.length = 0 then
    none
  else
    some
      { positive := (sentiments.map (fun s => s.pos)).sum / (sentiments.length : ℚ)
        negative := (sentiments.map (fun s => s.neg)).sum / (sentiments.length : ℚ)
        neutral := (sentiments.map (fun s => s.neu)).sum / (sentiments.length : ℚ)
        compound := (sentiments.map (fun s => s.compound)).sum / (sentiments.length : ℚ) }

/-- ContentAnalysisAgent._is_emoji: a single character is flagged when its
code point exceeds 127 (the `len(character) > 1` disjunct never holds for a
single character). -/
def isEmoji (c : Char) : Bool :=
  c.toNat > 127

/-- ContentAnalysisAgent._analyze_style, with the external nltk tokenizers as
oracles `sentTok` (sentence splitting) and `wordTok` (word splitting).  All
divisions are guarded exactly as in the source. -/
def analyzeStyle (sentTok wordTok : String → List String)
    (posts : List String) : StyleMetrics :=
  let totalWords := (posts.map (fun p => (wordTok p.toLower).length)).sum
  let uniqueWords :=
    ((posts.map (fun p => wordTok p.toLower)).flatten).foldl
      (fun acc w => if w ∈ acc then acc else acc ++ [w]) []
  let sentLenSum :=
    (posts.map (fun p => ((sentTok p).map (fun s => (wordTok s).length)).sum)).sum
  let emojiSum := (posts.map (fun p => (p.toList.filter isEmoji).length)).sum
  if 0 < posts.length then
    { avg_sentence_length := (sentLenSum : ℚ) / (posts.length : ℚ)
      vocabulary_richness :=
        if 0 < totalWords then (uniqueWords.length : ℚ) / (totalWords : ℚ) else 0
      emoji_usage := (emojiSum : ℚ) / (posts.length : ℚ) }
  else
    { avg_sentence_length := 0, vocabulary_richness := 0, emoji_usage := 0 }

/-- Ordered insertion used to model Counter.most_common: an element moves
ahead only of strictly smaller counts, so equal counts keep first-seen
order. -/
def insertByCount (x : String × ℕ) : List (String × ℕ) → List (String × ℕ)
  | [] => [x]
  | y :: ys => if y.2 < x.2 then x :: y :: ys else y :: insertByCount x ys

/-- Stable descending sort by count (Counter.most_common ordering). -/
def sortByCountDesc (l : List (String × ℕ)) : List (String × ℕ) :=
  l.foldl (fun acc x => insertByCount x acc) []

/-- ContentAnalysisAgent._extract_topics, with nltk tokenization and
part-of-speech tagging as oracles.  Nouns are the words whose tag starts
with NN (the source also lists NNP, itself an NN-prefixed tag); the top 10
by count are returned, ties keeping first-seen order. -/
def extractTopics (wordTok : String → List String)
    (posTag : List String → List (String × String))
    (posts : List String) : List String :=
  let nouns :=
    (posts.map (fun p =>
      ((posTag (wordTok p.toLower)).filter (fun wt => wt.2.startsWith "NN")).map
        (fun wt => wt.1))).flatten
  let distinct := nouns.foldl (fun acc w => if w ∈ acc then acc else acc ++ [w]) []
  let counted := distinct.map (fun w => (w, nouns.count w))
  ((sortByCountDesc counted).take 10).map (fun x => x.1)

/-- ContentAnalysisAgent._analyze_language_metrics, with the nltk word
tokenizer as an oracle.  Word lengths are character counts. -/
def analyzeLanguageMetrics (wordTok : String → List String)
    (posts : List String) : LanguageMetrics :=
  let totalWords := (posts.map (fun p => (wordTok p).length)).sum
  let totalChars := (posts.map (fun p => ((wordTok p).map String.length).sum)).sum
  let questions := (posts.map (fun p => p.toList.count '?')).sum
  let exclaims := (posts.map (fun p => p.toList.count '!')).sum
  if 0 < posts.length then
    { avg_post_length := (totalWords : ℚ) / (posts.length : ℚ)
      avg_word_length :=
        if 0 < totalWords then (totalChars : ℚ) / (totalWords : ℚ) else 0
      question_frequency := (questions : ℚ) / (posts.length : ℚ)
      exclamation_frequency := (exclaims : ℚ) / (posts.length : ℚ) }
  else
    { avg_post_length := 0, avg_word_length := 0
      question_frequency := 0, exclamation_frequency := 0 }

/-- Errors a pipeline run can surface to the caller.  validationError is the
ValueError the orchestrator raises when validate_input fails;
analysisTypeError is the TypeError raised when the analysis stage iterates a
None post list; analysisZeroDivisionError is the ZeroDivisionError of
_analyze_overall_sentiment on an empty post list; genParamsAttributeError is
the AttributeError raised when the orchestrator calls .get on a None
generation_params value. -/
inductive PipeError where
  | validationError
  | analysisTypeError
  | analysisZeroDivisionError
  | genParamsAttributeError
deriving Repr, DecidableEq

/-- ContentAnalysisAgent.process.  Its input dict always carries the posts
key (the orchestrator builds it), so validate_input passes; the posts value
itself may be Python None, in which case iterating it inside
_analyze_overall_sentiment raises TypeError.  The sentiment average is
computed first in the source, so its ZeroDivisionError on an empty list
pre-empts the remaining metrics. -/
def contentAnalysisProcess (scorer : String → SentimentScores)
    (sentTok wordTok : String → List String)
    (posTag : List String → List (String × String))
    (posts : Option (List String)) : Except PipeError AnalysisResults :=
  match posts with
  | none => .error .analysisTypeError
  | some ps =>
    match analyzeOverallSentiment scorer ps with
    | none => .error .analysisZeroDivisionError
    | some s =>
      .ok
        { overall_sentiment := s
          tone_analysis := analyzeTone ps
          style_characteristics := analyzeStyle sentTok wordTok ps
          common_topics := extractTopics wordTok posTag ps
          language_metrics := analyzeLanguageMetrics wordTok ps }

/-- The metadata dict of a TextGenerationAgent.process result. -/
structure TextMetadata where
  post_type : String
  target_platform : Option String
  success_rate : ℚ
deriving Repr, DecidableEq

/-- A TextGenerationAgent.process result: the generated posts plus batch
metadata. -/
structure TextContent where
  generated_posts : List String
  metadata : TextMetadata
deriving Repr, DecidableEq

/-- The per-post generation loop of TextGenerationAgent.process.  Attempt
`i` is the external LLM call for iteration i (oracle): an `error` outcome is
a raised exception, absorbed by the loop's handler (`continue`); an `ok`
outcome is the returned text, appended only when non-empty (the source's
`if post:` truthiness test). -/
def textLoopStep (attempt : ℕ → Except String String)
    (acc : List String) (i : ℕ) : List String :=
  match attempt i with
  | .ok post => if post = "" then acc else acc ++ [post]
  | .error _ => acc

/-- The posts accumulated by the generation loop over range(num_posts). -/
def generatedPosts (attempt : ℕ → Except String String) (n : ℕ) : List String :=
  (List.range n).foldl (textLoopStep attempt) []

/-- TextGenerationAgent.process, after its input validation (the
orchestrator always supplies every required field).  Prompt construction is
pure string formatting over typed analysis results and cannot raise; it does
not affect any verified property and is folded into the attempt oracle.
num_posts is a Python int (may be negative, in which case the range is
empty); the success-rate division is guarded by `if num_posts > 0`. -/
def textGenerationProcess (attempt : ℕ → Except String String)
    (num_posts : ℤ) (post_type : String) (target_platform : Option String) :
    TextContent :=
  let posts := generatedPosts attempt num_posts.toNat
  { generated_posts := posts
    metadata :=
      { post_type := post_type
        target_platform := target_platform
        success_rate :=
          if 0 < num_posts then (posts.length : ℚ) / (num_posts : ℚ) else 0 } }

/-- Platform-specific image requirements (the orchestrator passes whatever
the platform_configs table holds; only the size key is ever read). -/
structure PlatformSpecs where
  size : Option (ℕ × ℕ)
deriving Repr, DecidableEq

/-- Caller-supplied brand guidelines, an opaque key-value map. -/
abbrev BrandGuidelines := List (String × String)

/-- The metadata dict of a VisualGenerationAgent.process result.
prompt_used and platform_specs are absent in the outer-exception return
path, hence Option. -/
structure VisualMetadata where
  prompt_used : Option String
  platform_specs : Option PlatformSpecs
  generation_successful : Bool
  error : Option String
deriving Repr, DecidableEq

/-- A VisualGenerationAgent.process result.  The image_data value is always
actual bytes in the source: every failure path substitutes the placeholder,
and on success _process_image is only reached with non-empty input, where it
returns either re-encoded or the original bytes (its `if not image_data:
return None` guard is unreachable from process). -/
structure VisualResult where
  image_data : Bytes
  metadata : VisualMetadata
deriving Repr, DecidableEq

/-- VisualGenerationAgent._generate_mock_image renders a placeholder JPEG
via PIL (external library); modelled as a fixed non-empty byte string (JPEG
marker bytes). -/
def mockImage : Bytes := [255, 216, 255, 217]

/-- VisualGenerationAgent._process_image on the reachable path (non-empty
input bytes).  The PIL resize/convert/re-encode work is external and
modelled as the `attempt` outcome: its internal handler catches any raise
and returns the original unprocessed bytes. -/
def processImage (image_data : Bytes) (platform_specs : PlatformSpecs)
    (attempt : Except String Bytes) : Bytes :=
  match platform_specs, attempt with
  | _, .ok processed => processed
  | _, .error _ => image_data

/-- Outcome of one VisualGenerationAgent.process call's try block:
either the block ran to completion, with `imageGen` the result of
_generate_image (`none` when no client is configured, the DALL-E call
raised, or the response carried no data — all caught inside _generate_image)
and `procAttempt` the PIL post-processing outcome; or some step of the block
raised (`raised`), reaching the outer handler. -/
inductive VisualCallOutcome where
  | completed (imageGen : Option Bytes) (procAttempt : Except String Bytes)
  | raised (msg : String)
deriving Repr, DecidableEq

/-- Whether an outcome is a failure in the sense of the spec: no credential,
provider call error or empty response (imageGen none), an empty payload
(Python falsiness of the bytes), or a raise inside the try block. -/
def visualCallFailed : VisualCallOutcome → Bool
  | .completed none _ => true
  | .completed (some data) _ => data.isEmpty
  | .raised _ => true

/-- VisualGenerationAgent.process after its input validation (the
orchestrator always supplies text_content and brand_guidelines).  The
`if not image_data` truthiness test covers both a None result and empty
bytes; both take the placeholder return.  The outer handler converts any
raise into a placeholder return whose metadata carries only the error and
the success flag. -/
def visualGenerationProcess (image_prompt : String)
    (platform_specs : PlatformSpecs) (outcome : VisualCallOutcome) :
    VisualResult :=
  match outcome with
  | .raised msg =>
    { image_data := mockImage
      metadata :=
        { prompt_used := none
          platform_specs := none
          generation_successful := false
          error := some ("Error in image generation: " ++ msg) } }
  | .completed imageGen procAttempt =>
    match imageGen with
    | none =>
      { image_data := mockImage
        metadata :=
          { prompt_used := some image_prompt
            platform_specs := some platform_specs
            generation_successful := false
            error := some "Image generation failed - using placeholder" } }
    | some data =>
      if data.isEmpty then
        { image_data := mockImage
          metadata :=
            { prompt_used := some image_prompt
              platform_specs := some platform_specs
              generation_successful := false
              error := some "Image generation failed - using placeholder" } }
      else
        { image_data := processImage data platform_specs procAttempt
          metadata :=
            { prompt_used := some image_prompt
              platform_specs := some platform_specs
              generation_successful := true
              error := none } }

/-- OrchestratorAgent._get_style_preferences: a projection of the text
metadata (whose post_type key is always set by the text stage). -/
structure StylePreferences where
  mood : String
  style : String
  composition : String
deriving Repr, DecidableEq

/-- Build the style preferences from text metadata. -/
def getStylePreferences (md : TextMetadata) : StylePreferences :=
  { mood := md.post_type, style := "modern", composition := "social_media_optimized" }

/-- The input dict the orchestrator hands one visual-generation call. -/
structure VisualInput where
  text_content : String
  brand_guidelines : Option BrandGuidelines
  style_preferences : StylePreferences
  platform_specs : PlatformSpecs
deriving Repr, DecidableEq

/-- The orchestrator's handler around one visual call: an exception becomes
a None entry, a normal return is kept. -/
def absorbVisual : Except String VisualResult → Option VisualResult
  | .ok v => some v
  | .error _ => none

/-- The visual-stage loop of OrchestratorAgent._generate_visual_content,
with the call counter made explicit.  The oracle models the awaited
visual-provider call for the i-th post (an `error` is a raise, caught by the
loop's handler). -/
def generateVisualContentFrom (oracle : ℕ → VisualInput → Except String VisualResult)
    (bg : Option BrandGuidelines) (sp : StylePreferences) (specs : PlatformSpecs) :
    ℕ → List String → List (Option VisualResult)
  | _, [] => []
  | i, post :: rest =>
    absorbVisual (oracle i { text_content := post, brand_guidelines := bg
                             style_preferences := sp, platform_specs := specs }) ::
      generateVisualContentFrom oracle bg sp specs (i + 1) rest

/-- OrchestratorAgent._generate_visual_content: one provider call per text
item, in order, each outcome appended (a caught raise appends None). -/
def generateVisualContent (oracle : ℕ → VisualInput → Except String VisualResult)
    (bg : Option BrandGuidelines) (sp : StylePreferences) (specs : PlatformSpecs)
    (posts : List String) : List (Option VisualResult) :=
  generateVisualContentFrom oracle bg sp specs 0 posts

/-- One compiled post bundle (the post_package dict of
_compile_content_package, with its nested metadata flattened into typed
fields). -/
structure PostBundle where
  text : String
  visual : Option Bytes
  text_metadata : TextMetadata
  visual_metadata : Option VisualMetadata
  analysis_context : AnalysisResults
deriving Repr, DecidableEq

/-- The statistics dict of the compiled package. -/
structure Statistics where
  total_posts : ℕ
  posts_with_visuals : ℕ
  generation_timestamp : String
deriving Repr, DecidableEq

/-- The final content package. -/
structure ContentPackage where
  posts : List PostBundle
  statistics : Statistics
deriving Repr, DecidableEq

/-- OrchestratorAgent._compile_content_package.  zip truncates to the
shorter sequence exactly as Python zip does; the visual field holds the
image payload only when a visual result is present (Python dict truthiness:
the result dicts are never empty) and its success flag is set.  The
timestamp is taken at compilation time and passed in here. -/
def compileContentPackage (text_content : TextContent)
    (visual_content : List (Option VisualResult))
    (analysis_results : AnalysisResults) (timestamp : String) : ContentPackage :=
  let posts :=
    (text_content.generated_posts.zip visual_content).map (fun tv =>
      { text := tv.1
        visual :=
          match tv.2 with
          | some v =>
            if v.metadata.generation_successful then some v.image_data else none
          | none => none
        text_metadata := text_content.metadata
        visual_metadata := tv.2.map VisualResult.metadata
        analysis_context := analysis_results })
  { posts := posts
    statistics :=
      { total_posts := posts.length
        posts_with_visuals := (posts.filter (fun p => p.visual.isSome)).length
        generation_timestamp := timestamp } }

/-- Whether a compiled bundle's visual asset carries success flag true. -/
def bundleVisualSuccess (b : PostBundle) : Bool :=
  match b.visual_metadata with
  | some m => m.generation_successful
  | none => false

/-- The generation_params value: a dict read with .get for num_posts
(default 1) and post_type (default general). -/
structure GenParams where
  num_posts : Option ℤ
  post_type : Option String
deriving Repr, DecidableEq

/-- A generation request as the orchestrator receives it: a Python dict.
The outer Option of each field is key presence (what validate_input checks);
the inner Option is a present key whose value is Python None. -/
structure Request where
  existing_posts : Option (Option (List String))
  brand_guidelines : Option (Option BrandGuidelines)
  generation_params : Option (Option GenParams)
  platform : Option (Option String)
deriving Repr, DecidableEq

/-- BaseAgent.validate_input for the orchestrator's four required fields:
true exactly when every key is present (values, including None, are not
inspected). -/
def validateInput (r : Request) : Bool :=
  r.existing_posts.isSome && r.brand_guidelines.isSome &&
    r.generation_params.isSome && r.platform.isSome

/-- Which sub-agents a run invoked, in order. -/
inductive AgentCall where
  | analysis
  | textGeneration
  | visualGeneration
deriving Repr, DecidableEq

/-- A run's observable outcome: the provider calls it made and its returned
package or raised error. -/
structure RunTrace where
  calls : List AgentCall
  result : Except PipeError ContentPackage
deriving Repr, DecidableEq

/-- OrchestratorAgent.process.  Validation failure raises before any
provider call.  The analysis stage's raises are propagated unchanged (the
orchestrator's handlers log and re-raise).  A None generation_params raises
AttributeError when the orchestrator reads .get from it, after analysis but
before text generation.  From text generation on, per-attempt and per-item
errors are absorbed by the loops and compilation is a total function, so the
run returns a package.  External collaborators appear as oracles; the
timestamp is the compilation-time clock reading. -/
def orchestratorProcess (scorer : String → SentimentScores)
    (sentTok wordTok : String → List String)
    (posTag : List String → List (String × String))
    (textAttempt : ℕ → Except String String)
    (visualOracle : ℕ → VisualInput → Except String VisualResult)
    (platformConfigs : Option String → PlatformSpecs)
    (timestamp : String) (r : Request) : RunTrace :=
  match r.existing_posts, r.brand_guidelines, r.generation_params, r.platform with
  | some posts, some bg, some gpOpt, some platform =>
    match contentAnalysisProcess scorer sentTok wordTok posTag posts with
    | .error e => { calls := [.analysis], result := .error e }
    | .ok analysis =>
      match gpOpt with
      | none => { calls := [.analysis], result := .error .genParamsAttributeError }
      | some gp =>
        let text :=
          textGenerationProcess textAttempt (gp.num_posts.getD 1)
            (gp.post_type.getD "general") platform
        let specs := platformConfigs platform
        let sp := getStylePreferences text.metadata
        let visuals := generateVisualContent visualOracle bg sp specs text.generated_posts
        { calls :=
            [.analysis, .textGeneration] ++
              List.replicate text.generated_posts.length .visualGeneration
          result := .ok (compileContentPackage text visuals analysis timestamp) }
  | _, _, _, _ => { calls := [], result := .error .validationError }

/-- TextGenerationAgent._get_dominant_tone: neutral for an empty tone dict,
otherwise Python max over the items keyed by weight, which keeps the first
(earliest-inserted) item among equals. -/
def getDominantTone (tone_analysis : List (String × ℚ)) : String :=
  match tone_analysis with
  | [] => "neutral"
  | x :: xs => (xs.foldl (fun best cur => if best.2 < cur.2 then cur else best) x).1

/-- A trivial sentiment oracle for concrete runs. -/
def constScorer : String → SentimentScores :=
  fun _ => { pos := 0, neg := 0, neu := 0, compound := 0 }

/-- A trivial tokenizer oracle for concrete runs. -/
def emptyTok : String → List String := fun _ => []

/-- A trivial part-of-speech oracle for concrete runs. -/
def noTag : List String → List (String × String) := fun _ => []

/-- A text-attempt oracle that raises on every attempt. -/
def alwaysFailText : ℕ → Except String String := fun _ => .error "generation failed"

/-- A visual-provider oracle that raises on every call. -/
def alwaysFailVisual : ℕ → VisualInput → Except String VisualResult :=
  fun _ _ => .error "visual call failed"

/-- A platform-configs table with no entries (every lookup yields the empty
spec dict). -/
def defaultSpecs : Option String → PlatformSpecs := fun _ => { size := none }

section HelperLemmas

theorem generateVisualContentFrom_length
    (oracle : ℕ → VisualInput → Except String VisualResult)
    (bg : Option BrandGuidelines) (sp : StylePreferences) (specs : PlatformSpecs) :
    ∀ (i : ℕ) (posts : List String),
      (generateVisualContentFrom oracle bg sp specs i posts).length = posts.length := by
  intro i posts
  induction posts generalizing i with
  | nil => rfl
  | cons p rest ih => simp [generateVisualContentFrom, ih]

theorem generateVisualContentFrom_get
    (oracle : ℕ → VisualInput → Except String VisualResult)
    (bg : Option BrandGuidelines) (sp : StylePreferences) (specs : PlatformSpecs) :
    ∀ (i k : ℕ) (posts : List String),
      (generateVisualContentFrom oracle bg sp specs i posts).get? k =
        (posts.get? k).map (fun p =>
          absorbVisual (oracle (i + k)
            { text_content := p, brand_guidelines := bg
              style_preferences := sp, platform_specs := specs })) := by
  intro i k posts
  induction posts generalizing i k with
  | nil => simp [generateVisualContentFrom]
  | cons p rest ih =>
    cases k with
    | zero => simp [generateVisualContentFrom]
    | succ k =>
      have harith : i + 1 + k = i + (k + 1) := by omega
      simpa [generateVisualContentFrom, harith] using ih (i + 1) k

end HelperLemmas

/-- C1: the visual stage emits exactly one entry per text item, in matching
index order, for every per-call provider behaviour, including a raising one
(a caught raise contributes a None entry) and the zero-item case; compiling
the package therefore yields one bundle per text item. -/
theorem visual_stage_alignment
    (oracle : ℕ → VisualInput → Except String VisualResult)
    (bg : Option BrandGuidelines) (sp : StylePreferences) (specs : PlatformSpecs)
    (text_content : TextContent) (analysis : AnalysisResults) (ts : String) :
    (generateVisualContent oracle bg sp specs text_content.generated_posts).length =
      text_content.generated_posts.length ∧
    (∀ k, (generateVisualContent oracle bg sp specs text_content.generated_posts).get? k =
      (text_content.generated_posts.get? k).map (fun p =>
        absorbVisual (oracle k
          { text_content := p, brand_guidelines := bg
            style_preferences := sp, platform_specs := specs }))) ∧
    (compileContentPackage text_content
        (generateVisualContent oracle bg sp specs text_content.generated_posts)
        analysis ts).posts.length = text_content.generated_posts.length := by
  refine ⟨generateVisualContentFrom_length oracle bg sp specs 0 _, ?_, ?_⟩
  · intro k
    simpa using generateVisualContentFrom_get oracle bg sp specs 0 k _
  · have hlen := generateVisualContentFrom_length oracle bg sp specs 0
      text_content.generated_posts
    simp [compileContentPackage, generateVisualContent, hlen]

/-- C2 (code divergence): on an empty existing-posts list the analysis stage
raises ZeroDivisionError inside _analyze_overall_sentiment (the averaging
divides by the number of posts without the empty-case guard that every
sibling metric function has), instead of returning the zero-valued profile
the specification requires. -/
theorem empty_posts_analysis_crash (scorer : String → SentimentScores)
    (sentTok wordTok : String → List String)
    (posTag : List String → List (String × String)) :
    contentAnalysisProcess scorer sentTok wordTok posTag (some []) =
      .error .analysisZeroDivisionError := rfl

/-- C8: every failing visual-generation call (no credential, provider call
error or empty response, all surfacing as a None image result; an empty
payload; or a raise inside the try block) returns an asset with success flag
false, a non-empty error description, and the non-empty placeholder image as
payload, without raising. -/
theorem visual_failure_placeholder (prompt : String) (specs : PlatformSpecs)
    (outcome : VisualCallOutcome) (h : visualCallFailed outcome = true) :
    (visualGenerationProcess prompt specs outcome).metadata.generation_successful = false ∧
    (∃ e, (visualGenerationProcess prompt specs outcome).metadata.error = some e ∧
      e ≠ "") ∧
    (visualGenerationProcess prompt specs outcome).image_data = mockImage ∧
    mockImage ≠ [] := by
  have hmock : mockImage ≠ [] := by decide
  rcases outcome with ⟨gen, proc⟩ | msg
  · cases gen with
    | none =>
      exact ⟨rfl, ⟨_, rfl, by decide⟩, rfl, hmock⟩
    | some data =>
      have hemp : data.isEmpty = true := by simpa [visualCallFailed] using h
      refine ⟨?_, ⟨"Image generation failed - using placeholder", ?_, by decide⟩, ?_, hmock⟩ <;>
        simp [visualGenerationProcess, hemp]
  · refine ⟨rfl, ⟨"Error in image generation: " ++ msg, rfl, ?_⟩, rfl, hmock⟩
    intro hc
    have hlen := congrArg String.length hc
    rw [String.length_append] at hlen
    have h27 : ("Error in image generation: " : String).length = 27 := by decide
    have h0 : ("" : String).length = 0 := rfl
    omega

/-- C8 witness: the unconfigured-credential case at a concrete input. -/
theorem visual_failure_placeholder_witness :
    (visualGenerationProcess "p" { size := none }
        (.completed none (.ok []))).metadata.generation_successful = false ∧
    (∃ e, (visualGenerationProcess "p" { size := none }
        (.completed none (.ok []))).metadata.error = some e ∧ e ≠ "") ∧
    (visualGenerationProcess "p" { size := none }
        (.completed none (.ok []))).image_data = mockImage ∧
    mockImage ≠ [] :=
  visual_failure_placeholder "p" { size := none } (.completed none (.ok [])) rfl

/-- C10: when the image is generated (non-empty payload) but PIL
post-processing raises, the provider returns the raw unprocessed bytes with
success flag true and no error description. -/
theorem process_image_failure_raw_bytes (prompt : String) (specs : PlatformSpecs)
    (data : Bytes) (msg : String) (h : data ≠ []) :
    visualGenerationProcess prompt specs (.completed (some data) (.error msg)) =
      { image_data := data
        metadata :=
          { prompt_used := some prompt, platform_specs := some specs
            generation_successful := true, error := none } } := by
  have hne : data.isEmpty = false := by
    cases data with
    | nil => exact absurd rfl h
    | cons b bs => rfl
  simp [visualGenerationProcess, hne, processImage]

theorem textLoop_foldl_length_le (attempt : ℕ → Except String String) :
    ∀ (l : List ℕ) (acc : List String),
      (l.foldl (textLoopStep attempt) acc).length ≤ acc.length + l.length := by
  intro l
  induction l with
  | nil => intro acc; simp
  | cons i t ih =>
    intro acc
    have hstep : (textLoopStep attempt acc i).length ≤ acc.length + 1 := by
      unfold textLoopStep
      cases attempt i with
      | error e => simp
      | ok post =>
        by_cases hp : post = "" <;> simp [hp]
    have := ih (textLoopStep attempt acc i)
    simp only [List.foldl_cons, List.length_cons]
    omega

theorem generatedPosts_length_le (attempt : ℕ → Except String String) (n : ℕ) :
    (generatedPosts attempt n).length ≤ n := by
  have := textLoop_foldl_length_le attempt (List.range n) []
  simpa [generatedPosts] using this

/-- C5: every text batch's success rate lies in the unit interval, equals
the number of successfully generated posts divided by the requested count
(with value 0 whenever that quotient is 0/0 or the count is not positive),
and is 0 at requested count 0; the guarded division never raises. -/
theorem success_rate_correct (attempt : ℕ → Except String String)
    (num_posts : ℤ) (post_type : String) (target_platform : Option String) :
    0 ≤ (textGenerationProcess attempt num_posts post_type
          target_platform).metadata.success_rate ∧
    (textGenerationProcess attempt num_posts post_type
          target_platform).metadata.success_rate ≤ 1 ∧
    (textGenerationProcess attempt num_posts post_type
          target_platform).metadata.success_rate =
      ((textGenerationProcess attempt num_posts post_type
          target_platform).generated_posts.length : ℚ) / (num_posts : ℚ) ∧
    (num_posts = 0 →
      (textGenerationProcess attempt num_posts post_type
          target_platform).metadata.success_rate = 0) := by
  simp only [textGenerationProcess]
  by_cases hpos : 0 < num_posts
  · have hle : (generatedPosts attempt num_posts.toNat).length ≤ num_posts.toNat :=
      generatedPosts_length_le attempt num_posts.toNat
    have hcast : ((generatedPosts attempt num_posts.toNat).length : ℚ) ≤ (num_posts : ℚ) := by
      have h1 : ((generatedPosts attempt num_posts.toNat).length : ℚ) ≤
          (num_posts.toNat : ℚ) := by exact_mod_cast hle
      have h2 : (num_posts.toNat : ℚ) = (num_posts : ℚ) := by
        rw [← Int.toNat_of_nonneg hpos.le]
        push_cast
        rw [Int.toNat_of_nonneg hpos.le]
      rw [h2] at h1
      exact h1
    have hq : (0 : ℚ) < (num_posts : ℚ) := by exact_mod_cast hpos
    refine ⟨?_, ?_, ?_, ?_⟩
    · simp only [if_pos hpos]
      exact div_nonneg (by positivity) hq.le
    · simp only [if_pos hpos]
      exact (div_le_one hq).mpr hcast
    · simp only [if_pos hpos]
    · intro h0
      omega
  · have hz : num_posts.toNat = 0 := by omega
    have hempty : generatedPosts attempt num_posts.toNat = [] := by
      rw [hz]; rfl
    refine ⟨?_, ?_, ?_, ?_⟩
    · simp [if_neg hpos]
    · simp [if_neg hpos]
    · simp [if_neg hpos, hempty]
    · intro h0
      simp [if_neg hpos]

/-- C5 witness: requested count 0 gives rate 0 and no division error. -/
theorem success_rate_correct_witness :
    (textGenerationProcess alwaysFailText 0 "general" none).metadata.success_rate = 0 :=
  (success_rate_correct alwaysFailText 0 "general" none).2.2.2 rfl

/-- C6: in every compiled package, total_posts is the bundle count,
posts_with_visuals counts exactly the bundles whose visual asset carries
success flag true, and a bundle's visual payload is present precisely when
its visual generation succeeded. -/
theorem compile_statistics_correct (tc : TextContent)
    (vc : List (Option VisualResult)) (ar : AnalysisResults) (ts : String) :
    (compileContentPackage tc vc ar ts).statistics.total_posts =
      (compileContentPackage tc vc ar ts).posts.length ∧
    (compileContentPackage tc vc ar ts).statistics.posts_with_visuals =
      ((compileContentPackage tc vc ar ts).posts.filter bundleVisualSuccess).length ∧
    ((compileContentPackage tc vc ar ts).posts.all
      (fun b => b.visual.isSome == bundleVisualSuccess b)) = true := by
  have hpt : ∀ b ∈ (compileContentPackage tc vc ar ts).posts,
      b.visual.isSome = bundleVisualSuccess b := by
    intro b hb
    simp only [compileContentPackage, List.mem_map] at hb
    obtain ⟨tv, _, rfl⟩ := hb
    rcases tv with ⟨t, v⟩
    cases v with
    | none => rfl
    | some vr =>
      by_cases hs : vr.metadata.generation_successful <;>
        simp [bundleVisualSuccess, hs]
  refine ⟨rfl, ?_, ?_⟩
  · have : (compileContentPackage tc vc ar ts).posts.filter (fun p => p.visual.isSome) =
        (compileContentPackage tc vc ar ts).posts.filter bundleVisualSuccess :=
      List.filter_congr (fun b hb => by rw [hpt b hb])
    calc (compileContentPackage tc vc ar ts).statistics.posts_with_visuals
        = ((compileContentPackage tc vc ar ts).posts.filter
            (fun p => p.visual.isSome)).length := rfl
      _ = _ := by rw [this]
  · rw [List.all_eq_true]
    intro b hb
    simpa using hpt b hb

theorem sum_map_div_list (l : List ℕ) (d : ℚ) :
    (l.map (fun n : ℕ => (n : ℚ) / d)).sum =
      (l.map (fun n : ℕ => (n : ℚ))).sum / d := by
  induction l with
  | nil => simp
  | cons a t ih =>
    rw [List.map_cons, List.map_cons, List.sum_cons, List.sum_cons, ih, add_div]

theorem sum_map_cast_list (l : List ℕ) :
    (l.map (fun n : ℕ => (n : ℚ))).sum = (l.sum : ℚ) := by
  induction l with
  | nil => simp
  | cons a t ih =>
    rw [List.map_cons, List.sum_cons, List.sum_cons, ih]
    push_cast
    ring

/-- C7: tone weights are never negative (and, being rationals, never NaN),
sum to exactly 1 whenever at least one marker occurred across the posts, and
are all exactly 0 otherwise. -/
theorem tone_weights_normalized (posts : List String) :
    (∀ x ∈ analyzeTone posts, 0 ≤ x.2) ∧
    (0 < totalToneScore posts → ((analyzeTone posts).map (fun x => x.2)).sum = 1) ∧
    (totalToneScore posts = 0 → ∀ x ∈ analyzeTone posts, x.2 = 0) := by
  have hform : analyzeTone posts =
      (toneRawScores posts).map (fun x => (x.1, (x.2 : ℚ) /
        (if totalToneScore posts = 0 then 1 else (totalToneScore posts : ℚ)))) := rfl
  have hdpos : (0 : ℚ) <
      (if totalToneScore posts = 0 then 1 else (totalToneScore posts : ℚ)) := by
    split_ifs with h0
    · norm_num
    · exact_mod_cast Nat.pos_of_ne_zero h0
  refine ⟨?_, ?_, ?_⟩
  · intro x hx
    rw [hform] at hx
    obtain ⟨y, _, rfl⟩ := List.mem_map.mp hx
    exact div_nonneg (Nat.cast_nonneg _) hdpos.le
  · intro hpos0
    have hne : totalToneScore posts ≠ 0 := hpos0.ne'
    rw [hform, List.map_map]
    have hcomp : ((fun x => x.2) ∘ (fun x : String × ℕ => (x.1, (x.2 : ℚ) /
        (if totalToneScore posts = 0 then 1 else (totalToneScore posts : ℚ))))) =
        ((fun n : ℕ => (n : ℚ) /
          (if totalToneScore posts = 0 then 1 else (totalToneScore posts : ℚ))) ∘
          (fun x : String × ℕ => x.2)) := rfl
    rw [hcomp, ← List.map_map, sum_map_div_list, sum_map_cast_list]
    have hsum : ((toneRawScores posts).map (fun x => x.2)).sum = totalToneScore posts :=
      rfl
    rw [hsum, if_neg hne]
    exact div_self (by exact_mod_cast hne)
  · intro h0
    intro x hx
    rw [hform] at hx
    obtain ⟨y, hy, rfl⟩ := List.mem_map.mp hx
    have hy2 : y.2 = 0 := by
      have hmem : y.2 ∈ (toneRawScores posts).map (fun x => x.2) :=
        List.mem_map_of_mem (fun x => x.2) hy
      have := (List.sum_eq_zero_iff.mp h0) y.2 hmem
      exact this
    simp [hy2]

/-- C7 witness: a single friendly-marker post makes the weights sum to 1. -/
theorem tone_weights_normalized_witness :
    0 < totalToneScore ["thanks"] ∧
    ((analyzeTone ["thanks"]).map (fun x => x.2)).sum = 1 :=
  ⟨by decide, (tone_weights_normalized ["thanks"]).2.1 (by decide)⟩

/-- C4 counterexample: on the all-zero tone distribution (marker sum 0), as
produced by tone analysis on a markerless post, dominant-tone selection
returns professional, not the neutral value the claim states. -/
theorem dominant_tone_zero_counterexample :
    ((analyzeTone ["zzz"]).map (fun x => x.2)) = [0, 0, 0, 0] ∧
    getDominantTone (analyzeTone ["zzz"]) = "professional" ∧
    ("professional" : String) ≠ "neutral" := by
  refine ⟨?_, ?_, by decide⟩ <;> with_unfolding_all rfl

/-- C4 (amended): on the four-tone distribution in its canonical insertion
order, dominant-tone selection returns the first tone (in the order
professional, casual, formal, friendly) whose weight equals the maximum
weight; the neutral value is returned only for an empty distribution, so the
all-zero distribution yields professional. -/
theorem dominant_tone_selection (p c f fr : ℚ) :
    getDominantTone [] = "neutral" ∧
    getDominantTone
        [("professional", p), ("casual", c), ("formal", f), ("friendly", fr)] =
      (if p = max (max (max p c) f) fr then "professional"
       else if c = max (max (max p c) f) fr then "casual"
       else if f = max (max (max p c) f) fr then "formal"
       else "friendly") := by
  refine ⟨rfl, ?_⟩
  show (List.foldl (fun best cur => if best.2 < cur.2 then cur else best)
      ("professional", p)
      [("casual", c), ("formal", f), ("friendly", fr)]).1 = _
  simp only [List.foldl_cons, List.foldl_nil]
  by_cases h1 : p < c
  · simp only [if_pos h1]
    by_cases h2 : c < f
    · simp only [if_pos h2]
      by_cases h3 : f < fr
      · simp only [if_pos h3]
        have hm : max (max (max p c) f) fr = fr := by
          rw [max_eq_right h1.le, max_eq_right h2.le, max_eq_right h3.le]
        rw [hm, if_neg (by intro he; linarith), if_neg (by intro he; linarith),
          if_neg (by intro he; linarith)]
      · simp only [if_neg h3]
        have hm : max (max (max p c) f) fr = f := by
          rw [max_eq_right h1.le, max_eq_right h2.le, max_eq_left (le_of_not_lt h3)]
        rw [hm, if_neg (by intro he; linarith), if_neg (by intro he; linarith),
          if_pos rfl]
    · simp only [if_neg h2]
      by_cases h3 : c < fr
      · simp only [if_pos h3]
        have hm : max (max (max p c) f) fr = fr := by
          rw [max_eq_right h1.le, max_eq_left (le_of_not_lt h2), max_eq_right h3.le]
        rw [hm, if_neg (by intro he; linarith), if_neg (by intro he; linarith),
          if_neg (by intro he; have := le_of_not_lt h2; linarith)]
      · simp only [if_neg h3]
        have hm : max (max (max p c) f) fr = c := by
          rw [max_eq_right h1.le, max_eq_left (le_of_not_lt h2),
            max_eq_left (le_of_not_lt h3)]
        rw [hm, if_neg (by intro he; linarith), if_pos rfl]
  · simp only [if_neg h1]
    by_cases h2 : p < f
    · simp only [if_pos h2]
      by_cases h3 : f < fr
      · simp only [if_pos h3]
        have hm : max (max (max p c) f) fr = fr := by
          rw [max_eq_left (le_of_not_lt h1), max_eq_right h2.le, max_eq_right h3.le]
        rw [hm, if_neg (by intro he; linarith),
          if_neg (by intro he; have := le_of_not_lt h1; linarith),
          if_neg (by intro he; linarith)]
      · simp only [if_neg h3]
        have hm : max (max (max p c) f) fr = f := by
          rw [max_eq_left (le_of_not_lt h1), max_eq_right h2.le,
            max_eq_left (le_of_not_lt h3)]
        rw [hm, if_neg (by intro he; linarith),
          if_neg (by intro he; have := le_of_not_lt h1; linarith), if_pos rfl]
    · simp only [if_neg h2]
      by_cases h3 : p < fr
      · simp only [if_pos h3]
        have hm : max (max (max p c) f) fr = fr := by
          rw [max_eq_left (le_of_not_lt h1), max_eq_left (le_of_not_lt h2),
            max_eq_right h3.le]
        rw [hm, if_neg (by intro he; linarith),
          if_neg (by intro he; have := le_of_not_lt h1; linarith),
          if_neg (by intro he; have := le_of_not_lt h2; linarith)]
      · simp only [if_neg h3]
        have hm : max (max (max p c) f) fr = p := by
          rw [max_eq_left (le_of_not_lt h1), max_eq_left (le_of_not_lt h2),
            max_eq_left (le_of_not_lt h3)]
        rw [hm, if_pos rfl]

/-- C10 witness: a concrete one-byte image whose post-processing raises. -/
theorem process_image_failure_raw_bytes_witness :
    visualGenerationProcess "p" { size := none }
        (.completed (some [7]) (.error "resize failed")) =
      { image_data := [7]
        metadata :=
          { prompt_used := some "p", platform_specs := some { size := none }
            generation_successful := true, error := none } } :=
  process_image_failure_raw_bytes "p" { size := none } [7] "resize failed" (by decide)

theorem contentAnalysisProcess_error_kinds (scorer : String → SentimentScores)
    (sentTok wordTok : String → List String)
    (posTag : List String → List (String × String))
    (posts : Option (List String)) (e : PipeError)
    (h : contentAnalysisProcess scorer sentTok wordTok posTag posts = .error e) :
    e = .analysisTypeError ∨ e = .analysisZeroDivisionError := by
  cases posts with
  | none =>
    simp only [contentAnalysisProcess] at h
    cases h
    exact Or.inl rfl
  | some ps =>
    cases hS : analyzeOverallSentiment scorer ps with
    | none =>
      simp only [contentAnalysisProcess, hS] at h
      cases h
      exact Or.inr rfl
    | some s =>
      simp only [contentAnalysisProcess, hS] at h
      exact Except.noConfusion h

/-- C3: once the text-generation stage can begin (validation and gen-params
extraction passed and the analysis stage returned a profile), the run always
completes with a package: every per-attempt text error and every per-item
visual error, for arbitrary provider behaviour, is absorbed by the loops,
and compilation is a total function. -/
theorem no_failure_after_text_begins (scorer : String → SentimentScores)
    (sentTok wordTok : String → List String)
    (posTag : List String → List (String × String))
    (textAttempt : ℕ → Except String String)
    (visualOracle : ℕ → VisualInput → Except String VisualResult)
    (platformConfigs : Option String → PlatformSpecs)
    (ts : String) (r : Request)
    (posts : Option (List String)) (bg : Option BrandGuidelines)
    (gp : GenParams) (platform : Option String) (a : AnalysisResults)
    (hp : r.existing_posts = some posts) (hb : r.brand_guidelines = some bg)
    (hg : r.generation_params = some (some gp)) (hpf : r.platform = some platform)
    (ha : contentAnalysisProcess scorer sentTok wordTok posTag posts = .ok a) :
    ∃ pkg, (orchestratorProcess scorer sentTok wordTok posTag textAttempt
      visualOracle platformConfigs ts r).result = .ok pkg := by
  rcases r with ⟨ep, bgf, gpf, pf⟩
  simp only at hp hb hg hpf
  subst hp; subst hb; subst hg; subst hpf
  simp only [orchestratorProcess, ha]
  exact ⟨_, rfl⟩

/-- A concrete valid request for witnessing completed runs. -/
def requestW : Request :=
  { existing_posts := some (some ["hi"])
    brand_guidelines := some (some [])
    generation_params := some (some { num_posts := some 1, post_type := some "general" })
    platform := some (some "instagram") }

/-- C3 witness: a concrete run whose text and visual providers raise on
every call still returns a package. -/
theorem no_failure_after_text_begins_witness :
    ∃ pkg, (orchestratorProcess constScorer emptyTok emptyTok noTag alwaysFailText
      alwaysFailVisual defaultSpecs "ts" requestW).result = .ok pkg :=
  no_failure_after_text_begins constScorer emptyTok emptyTok noTag alwaysFailText
    alwaysFailVisual defaultSpecs "ts" requestW (some ["hi"]) (some [])
    { num_posts := some 1, post_type := some "general" } (some "instagram") _
    rfl rfl rfl rfl (by with_unfolding_all rfl)

/-- C9 (amended): the orchestrator raises its validation error before
invoking any provider exactly when one of the four request keys is absent;
a key that is present with a nil value passes validation, so the run then
proceeds into the provider pipeline (a nil existing-posts value fails inside
the analysis stage with a type error, not with a validation error). -/
theorem validation_checks_presence (scorer : String → SentimentScores)
    (sentTok wordTok : String → List String)
    (posTag : List String → List (String × String))
    (textAttempt : ℕ → Except String String)
    (visualOracle : ℕ → VisualInput → Except String VisualResult)
    (platformConfigs : Option String → PlatformSpecs)
    (ts : String) (r : Request) :
    (validateInput r = false ↔
      (r.existing_posts = none ∨ r.brand_guidelines = none ∨
        r.generation_params = none ∨ r.platform = none)) ∧
    (validateInput r = false →
      orchestratorProcess scorer sentTok wordTok posTag textAttempt
          visualOracle platformConfigs ts r =
        { calls := [], result := .error .validationError }) ∧
    (validateInput r = true →
      (orchestratorProcess scorer sentTok wordTok posTag textAttempt
          visualOracle platformConfigs ts r).result ≠ .error .validationError) := by
  rcases r with ⟨ep, bgf, gpf, pf⟩
  refine ⟨?_, ?_, ?_⟩
  · cases ep <;> cases bgf <;> cases gpf <;> cases pf <;> simp [validateInput]
  · intro hv
    cases ep <;> cases bgf <;> cases gpf <;> cases pf <;>
      first
        | rfl
        | simp [validateInput] at hv
  · intro hv
    cases ep with
    | none => simp [validateInput] at hv
    | some posts =>
      cases bgf with
      | none => simp [validateInput] at hv
      | some bg =>
        cases gpf with
        | none => simp [validateInput] at hv
        | some gpOpt =>
          cases pf with
          | none => simp [validateInput] at hv
          | some platform =>
            cases hA : contentAnalysisProcess scorer sentTok wordTok posTag posts with
            | error e =>
              have hk := contentAnalysisProcess_error_kinds scorer sentTok wordTok
                posTag posts e hA
              simp only [orchestratorProcess, hA]
              rcases hk with rfl | rfl <;> simp
            | ok a =>
              cases gpOpt with
              | none => simp [orchestratorProcess, hA]
              | some gp => simp [orchestratorProcess, hA]

/-- A request whose platform key is missing entirely. -/
def requestMissingPlatform : Request :=
  { existing_posts := some (some ["hi"])
    brand_guidelines := some (some [])
    generation_params := some (some { num_posts := some 1, post_type := some "general" })
    platform := none }

/-- C9 witness: a request missing the platform key fails validation with no
provider invoked. -/
theorem validation_checks_presence_witness :
    orchestratorProcess constScorer emptyTok emptyTok noTag alwaysFailText
        alwaysFailVisual defaultSpecs "ts" requestMissingPlatform =
      { calls := [], result := .error .validationError } :=
  (validation_checks_presence constScorer emptyTok emptyTok noTag alwaysFailText
    alwaysFailVisual defaultSpecs "ts" requestMissingPlatform).2.1 rfl

/-- A request carrying every key, with a nil existing-posts value. -/
def requestNilPosts : Request :=
  { existing_posts := some none
    brand_guidelines := some (some [])
    generation_params := some (some { num_posts := some 1, post_type := some "general" })
    platform := some (some "instagram") }

/-- C9 counterexample: a request that carries all four keys but a nil
existing-posts value passes validation, invokes the analysis provider, and
fails there with a type error — not with the pre-provider validation error
the claim requires for every request lacking a non-nil posts sequence. -/
theorem validation_nil_value_counterexample :
    validateInput requestNilPosts = true ∧
    (orchestratorProcess constScorer emptyTok emptyTok noTag alwaysFailText
        alwaysFailVisual defaultSpecs "ts" requestNilPosts).calls = [.analysis] ∧
    (orchestratorProcess constScorer emptyTok emptyTok noTag alwaysFailText
        alwaysFailVisual defaultSpecs "ts" requestNilPosts).result =
      .error .analysisTypeError ∧
    PipeError.analysisTypeError ≠ PipeError.validationError :=
  ⟨rfl, rfl, rfl, by decide⟩

end SMG
